import Mathlib

/-!
Verification of the django-helpdesk serializer and webhook-notification
behaviour described in the repository specification.

The embedding follows `src/helpdesk/serializers.py` for every construct that
file contains (serializer field lists, `create` methods, custom-field
injection).  Components of the repository that are exercised by
`src/helpdesk/tests/test_webhooks.py` but whose code is not under `src/`
(the webhook payload builder and dispatcher, `TicketForm`, `update_ticket`,
the inbound-email ingestion entry point, Django's `set_password`) are
modelled from the specification; each such definition carries a doc comment
saying so.
-/

namespace Helpdesk

/-- Event kind discriminator: NewTicket or FollowUp (spec glossary). -/
inductive EventKind where
  | NewTicket
  | FollowUp
deriving DecidableEq, Repr

/-- A queue record; `TicketSerializer.create` reads `.id` off the queue
instance held in `validated_data` (serializers.py line 246). -/
structure Queue where
  id : Nat
  title : String
deriving DecidableEq, Repr

/-- A persisted FollowUp row with the columns that
`FollowUpSerializer.Meta.fields` exposes (serializers.py lines 106-121);
`attachments` is write-only and `followupattachment_set`/`date`/`message_id`
are read-only framework-filled fields kept here as plain data. -/
structure FollowUpRec where
  id : Nat
  ticket : Nat
  user : Option Nat
  title : Option String
  comment : String
  public : Bool
  new_status : Option Nat
  time_spent : Option Nat
deriving DecidableEq, Repr

/-- A persisted Ticket row with the columns that
`TicketSerializer.Meta.fields` exposes (serializers.py lines 222-237),
with its ordered follow-up list. -/
structure Ticket where
  id : Nat
  queue : Nat
  title : String
  description : String
  resolution : Option String
  submitter_email : String
  assigned_to : Option Nat
  status : Nat
  on_hold : Bool
  priority : Nat
  due_date : Option String
  merged_to : Option Nat
  followup_set : List FollowUpRec
deriving DecidableEq, Repr

/-- The serialized form of a FollowUp as produced by `FollowUpSerializer`
for read access (write-only `attachments` omitted). -/
structure FollowUpDoc where
  id : Nat
  ticket : Nat
  user : Option Nat
  title : Option String
  comment : String
  public : Bool
  new_status : Option Nat
  time_spent : Option Nat
deriving DecidableEq, Repr

/-- The serialized form of a Ticket as produced by `TicketSerializer`:
the `Meta.fields` columns plus the nested read-only `followup_set`
(serializers.py line 217), write-only `attachment` omitted. -/
structure TicketDoc where
  id : Nat
  queue : Nat
  title : String
  description : String
  resolution : Option String
  submitter_email : String
  assigned_to : Option Nat
  status : Nat
  on_hold : Bool
  priority : Nat
  due_date : Option String
  merged_to : Option Nat
  followup_set : List FollowUpDoc
deriving DecidableEq, Repr

/-- `FollowUpSerializer` read path: a direct field mapping. -/
def serializeFollowUp (f : FollowUpRec) : FollowUpDoc :=
  { id := f.id, ticket := f.ticket, user := f.user, title := f.title,
    comment := f.comment, public := f.public, new_status := f.new_status,
    time_spent := f.time_spent }

/-- `TicketSerializer` read path: the `Meta.fields` mapping with
`followup_set = FollowUpSerializer(many=True, read_only=True)` nested
(serializers.py lines 216-237). -/
def serializeTicket (t : Ticket) : TicketDoc :=
  { id := t.id, queue := t.queue, title := t.title,
    description := t.description, resolution := t.resolution,
    submitter_email := t.submitter_email, assigned_to := t.assigned_to,
    status := t.status, on_hold := t.on_hold, priority := t.priority,
    due_date := t.due_date, merged_to := t.merged_to,
    followup_set := t.followup_set.map serializeFollowUp }

/-- Modelled from the spec: the webhook Event (spec section 3) — the
webhook module itself is not under src/.  Per the tests, the payload's
`ticket` key holds the serialized ticket (for a FollowUp event, the parent
ticket embedding its full follow-up list). -/
structure Event where
  kind : EventKind
  ticket : TicketDoc
deriving DecidableEq, Repr

/-- Modelled from the spec: process-wide endpoint configuration, one
environment-style setting per event kind holding a comma- or
space-delimited URL list, possibly unset (spec sections 4.2 and 6). -/
structure Config where
  new_ticket_webhook_urls : Option String
  followup_webhook_urls : Option String
deriving DecidableEq, Repr

/-- Splitting helper over the character list: cut at every space or comma,
accumulating the current piece in reverse. -/
def splitUrlChars (cs : List Char) (cur : List Char) : List String :=
  match cs with
  | [] => [String.mk cur.reverse]
  | c :: rest =>
    if c = ' ' || c = ',' then String.mk cur.reverse :: splitUrlChars rest []
    else splitUrlChars rest (c :: cur)

/-- Modelled from the spec: split a comma- or space-delimited URL list,
dropping empty pieces (spec section 4.2). -/
def splitUrls (s : String) : List String :=
  (splitUrlChars s.data []).filter (fun u => u ≠ "")

/-- Modelled from the spec: the endpoint registry, `resolve(kind)` reading
the configuration it is handed at the call; empty or unset configuration
yields the empty list (spec section 4.2). -/
def resolveEndpoints (cfg : Config) (k : EventKind) : List String :=
  match k with
  | .NewTicket =>
    match cfg.new_ticket_webhook_urls with
    | none => []
    | some s => splitUrls s
  | .FollowUp =>
    match cfg.followup_webhook_urls with
    | none => []
    | some s => splitUrls s

/-- Outcome of one outbound HTTP POST (spec sections 4.3 and 7). -/
inductive DeliveryOutcome where
  | success
  | connectionError
  | nonSuccessStatus (code : Nat)
  | timeout
deriving DecidableEq, Repr

/-- One delivery attempt: endpoint URL and its outcome (spec section 3). -/
structure DeliveryAttempt where
  url : String
  outcome : DeliveryOutcome
deriving DecidableEq, Repr

/-- Modelled from the spec: the delivery dispatcher — for each endpoint the
registry returns for the event kind, one HTTP POST is attempted; the
network is abstracted as `net`; per-endpoint failures are caught and
recorded, never propagated, so every endpoint is attempted regardless of
the others' outcomes (spec section 4.3). -/
def dispatch (cfg : Config) (net : String → DeliveryOutcome) (ev : Event) :
    List DeliveryAttempt :=
  (resolveEndpoints cfg ev.kind).map (fun u => { url := u, outcome := net u })

/-- Every dispatch attempts exactly the registry's endpoint list, in
order, whatever the per-endpoint outcomes are. -/
theorem dispatch_urls (cfg : Config) (net : String → DeliveryOutcome)
    (ev : Event) :
    (dispatch cfg net ev).map (fun a => a.url) =
      resolveEndpoints cfg ev.kind := by
  unfold dispatch
  induction resolveEndpoints cfg ev.kind with
  | nil => rfl
  | cons x xs ih => simp only [List.map_cons, ih]

/-- The persisted ticket table. -/
structure DB where
  tickets : List Ticket
deriving DecidableEq, Repr

/-- Auto-increment ticket id. -/
def nextTicketId (db : DB) : Nat :=
  db.tickets.length + 1

/-- Look a ticket up by primary key. -/
def findTicket (db : DB) (tid : Nat) : Option Ticket :=
  db.tickets.find? (fun t => t.id == tid)

/-- The `validated_data` handed to `TicketSerializer.create`: the writable
`Meta.fields` (serializers.py lines 222-237), with `queue` a resolved
`Queue` instance and `assigned_to`/`merged_to` resolved instances reduced
here to their ids (serializers.py lines 246-250 only read `.id`). -/
structure TicketInput where
  queue : Queue
  title : String
  description : String
  resolution : Option String := none
  submitter_email : String
  assigned_to : Option Nat := none
  status : Nat := 1
  on_hold : Bool := false
  priority : Nat
  due_date : Option String := none
  merged_to : Option Nat := none
  attachment : Option String := none
deriving DecidableEq, Repr

/-- The `data` dict handed to `TicketForm` by `TicketSerializer.create`
(serializers.py lines 243-250): the validated data with `body` set from
`description` and foreign keys replaced by their ids. -/
structure TicketFormData where
  queue : Nat
  title : String
  body : String
  submitter_email : String
  priority : Nat
  due_date : Option String
deriving DecidableEq, Repr

/-- Modelled from the spec: `TicketForm.is_valid` (helpdesk/forms.py is not
under src/) — validation fails on a bad queue (a queue id outside the
caller's queue choices) or malformed fields (here: an empty required title
or body), per spec section 7. -/
def ticketFormIsValid (queue_choices : List Nat) (d : TicketFormData) : Bool :=
  queue_choices.contains d.queue && d.title ≠ "" && d.body ≠ ""

/-- Modelled from the spec: `TicketForm.errors` — the structured validation
error surfaced through `ValidationError(ticket_form.errors)`
(serializers.py line 260), one message per failing field. -/
def ticketFormErrors (queue_choices : List Nat) (d : TicketFormData) :
    List String :=
  (if queue_choices.contains d.queue then [] else ["queue: invalid choice"]) ++
  (if d.title ≠ "" then [] else ["title: this field is required"]) ++
  (if d.body ≠ "" then [] else ["body: this field is required"])

/-- Modelled from the spec: `TicketForm.save` — persists a new Ticket built
from the form data (the form's `body` becomes the ticket's description),
with a fresh id and an empty follow-up list. -/
def ticketFormSave (db : DB) (d : TicketFormData) (inp : TicketInput) : Ticket :=
  { id := nextTicketId db, queue := d.queue, title := d.title,
    description := d.body, resolution := inp.resolution,
    submitter_email := d.submitter_email, assigned_to := inp.assigned_to,
    status := inp.status, on_hold := inp.on_hold, priority := d.priority,
    due_date := d.due_date, merged_to := inp.merged_to, followup_set := [] }

/-- What one creation call leaves behind: the value returned to the caller
(or the structured validation error), the database, the webhook events
built, and the delivery attempts performed. -/
structure TicketCreateOutcome where
  result : Except (List String) Ticket
  db : DB
  events : List Event
  attempts : List DeliveryAttempt
deriving Repr

/-- The form-data copy `TicketSerializer.create` builds from the validated
data (serializers.py lines 243-250): `body` is set from `description` and
the queue foreign key is replaced by its id. -/
def ticketFormDataOf (vd : TicketInput) : TicketFormData :=
  { queue := vd.queue.id, title := vd.title, body := vd.description,
    submitter_email := vd.submitter_email, priority := vd.priority,
    due_date := vd.due_date }

/-- `TicketSerializer.create` (serializers.py lines 239-260): copy the
validated data, set `body` from `description`, replace foreign keys by ids,
run `TicketForm`; on success save the ticket and — modelled from the spec's
trigger-point contract (section 4.4), the webhook module being outside
src/ — build exactly one NewTicket event and dispatch it; on failure raise
`ValidationError(ticket_form.errors)` with nothing persisted, built or
dispatched. -/
def ticketSerializerCreate (queue_choices : List Nat) (db : DB) (cfg : Config)
    (net : String → DeliveryOutcome) (vd : TicketInput) : TicketCreateOutcome :=
  let data : TicketFormData := ticketFormDataOf vd
  if ticketFormIsValid queue_choices data then
    let t := ticketFormSave db data vd
    let db2 : DB := { tickets := db.tickets ++ [t] }
    let ev : Event := { kind := .NewTicket, ticket := serializeTicket t }
    { result := .ok t, db := db2, events := [ev],
      attempts := dispatch cfg net ev }
  else
    { result := .error (ticketFormErrors queue_choices data), db := db,
      events := [], attempts := [] }

/-- What one follow-up creation call leaves behind. -/
structure FollowUpCreateOutcome where
  result : Except String FollowUpRec
  db : DB
  events : List Event
  attempts : List DeliveryAttempt
deriving Repr

/-- Modelled from the spec: `update_ticket` (helpdesk/update_ticket.py is
not under src/) — persists one new FollowUp on the given ticket with the
given author and fields, and, per the trigger-point contract (spec section
4.4), builds exactly one FollowUp event embedding the updated parent ticket
(which embeds its full follow-up list) and dispatches it; an unresolvable
ticket yields an error with nothing persisted or dispatched. -/
def update_ticket (db : DB) (cfg : Config) (net : String → DeliveryOutcome)
    (user : Nat) (ticket : Nat) (title : Option String) (comment : String)
    (isPublic : Bool) (new_status : Option Nat) (time_spent : Option Nat) :
    FollowUpCreateOutcome :=
  match findTicket db ticket with
  | none =>
    { result := .error "ticket not found", db := db, events := [],
      attempts := [] }
  | some t =>
    let f : FollowUpRec :=
      { id := t.followup_set.length + 1, ticket := t.id, user := some user,
        title := title, comment := comment, public := isPublic,
        new_status := new_status, time_spent := time_spent }
    let t2 : Ticket := { t with followup_set := t.followup_set ++ [f] }
    let db2 : DB :=
      { tickets := db.tickets.map (fun u => if u.id == ticket then t2 else u) }
    let ev : Event := { kind := .FollowUp, ticket := serializeTicket t2 }
    { result := .ok f, db := db2, events := [ev],
      attempts := dispatch cfg net ev }

/-- The `validated_data` handed to `FollowUpSerializer.create`: the
writable `Meta.fields` (serializers.py lines 106-121); `user` is `None`
(falsy) when not submitted, and the optional fields are read with `.get`
defaults in `create` (serializers.py lines 131-136). -/
structure FollowUpInput where
  ticket : Nat
  user : Option Nat := none
  title : Option String := none
  comment : Option String := none
  public : Option Bool := none
  new_status : Option Nat := none
  time_spent : Option Nat := none
deriving DecidableEq, Repr

/-- `FollowUpSerializer.create` (serializers.py lines 123-137): attribute
the follow-up to `validated_data["user"]` when truthy, otherwise to the
authenticated user of the requesting context, then call `update_ticket`
with the `.get`-defaulted fields. -/
def followUpSerializerCreate (ctxUser : Nat) (db : DB) (cfg : Config)
    (net : String → DeliveryOutcome) (vd : FollowUpInput) :
    FollowUpCreateOutcome :=
  let user :=
    match vd.user with
    | some u => u
    | none => ctxUser
  update_ticket db cfg net user vd.ticket vd.title (vd.comment.getD "")
    (vd.public.getD false) vd.new_status vd.time_spent

/-- Modelled from the spec: the payload dict handed to the inbound-email
ingestion entry point (helpdesk/email.py is not under src/), as built in
the tests: body, full body, subject, queue, sender email, priority. -/
structure EmailPayload where
  body : String
  full_body : String
  subject : String
  queue : Queue
  sender_email : String
  priority : Nat
deriving DecidableEq, Repr

/-- What one email-ingestion call leaves behind: a created Ticket or a
created FollowUp. -/
structure EmailCreateOutcome where
  result : Except String (Ticket ⊕ FollowUpRec)
  db : DB
  events : List Event
  attempts : List DeliveryAttempt
deriving Repr

/-- Modelled from the spec: `create_object_from_email_message`
(helpdesk/email.py is not under src/) — when the message carries a
resolvable ticket id a follow-up is created on that ticket with the
message body as comment (spec section 8, property 8), otherwise a new
ticket is created from the payload; each path then builds and dispatches
its one event through the common trigger points (spec section 4.4).  The
follow-up author is the system user 0, the email path having no
authenticated request user. -/
def create_object_from_email_message (db : DB) (cfg : Config)
    (net : String → DeliveryOutcome) (ticket_id : Option Nat)
    (p : EmailPayload) : EmailCreateOutcome :=
  let resolved := ticket_id.bind (fun tid => (findTicket db tid).map (fun _ => tid))
  match resolved with
  | some tid =>
    let o := update_ticket db cfg net 0 tid none p.body false none none
    { result := o.result.map Sum.inr, db := o.db, events := o.events,
      attempts := o.attempts }
  | none =>
    let t : Ticket :=
      { id := nextTicketId db, queue := p.queue.id, title := p.subject,
        description := p.body, resolution := none,
        submitter_email := p.sender_email, assigned_to := none, status := 1,
        on_hold := false, priority := p.priority, due_date := none,
        merged_to := none, followup_set := [] }
    let db2 : DB := { tickets := db.tickets ++ [t] }
    let ev : Event := { kind := .NewTicket, ticket := serializeTicket t }
    { result := .ok (Sum.inl t), db := db2, events := [ev],
      attempts := dispatch cfg net ev }

/-- A `CustomField` definition row, of which only the name matters to the
serializer schema (serializers.py line 161). -/
structure CustomField where
  name : String
deriving DecidableEq, Repr

/-- `TicketSerializer.Meta.fields` (serializers.py lines 222-237). -/
def ticketSerializerDeclaredFields : List String :=
  ["id", "queue", "title", "description", "resolution", "submitter_email",
   "assigned_to", "status", "on_hold", "priority", "due_date", "merged_to",
   "attachment", "followup_set"]

/-- `BaseTicketSerializer.__init__` (serializers.py lines 155-161): after
the superclass constructor installs the declared fields, one field named
`custom_<name>` is added for each `CustomField` row read from the database
at this construction. -/
def baseTicketSerializerFields (declared : List String)
    (customFieldTable : List CustomField) : List String :=
  declared ++ customFieldTable.map (fun f => "custom_" ++ f.name)

/-- The field schema of a freshly constructed `TicketSerializer`, a
`BaseTicketSerializer` subclass, given the current `CustomField` table. -/
def ticketSerializerFields (customFieldTable : List CustomField) :
    List String :=
  baseTicketSerializerFields ticketSerializerDeclaredFields customFieldTable

/-- A user row with the columns `UserSerializer` touches
(serializers.py lines 140-152) plus `is_active` and the stored password. -/
structure UserRec where
  first_name : String
  last_name : String
  username : String
  email : String
  password : String
  is_active : Bool
deriving DecidableEq, Repr

/-- The `validated_data` handed to `UserSerializer.create`: the
`Meta.fields` (serializers.py line 145). -/
structure UserInput where
  first_name : String := ""
  last_name : String := ""
  username : String
  email : String := ""
  password : String
deriving DecidableEq, Repr

/-- Modelled from the spec: Django's password hasher behind
`set_password` (framework collaborator, not under src/) — the stored value
is an algorithm-tagged salted hash, modelled as a tagged string so that it
is never the raw input itself. -/
def hashPassword (raw : String) : String :=
  "pbkdf2_sha256$" ++ raw

/-- Modelled from the spec: Django's `User.set_password` (framework
collaborator) — replaces the stored password with the hash of the raw
value. -/
def set_password (u : UserRec) (raw : String) : UserRec :=
  { u with password := hashPassword raw }

/-- `ModelSerializer.create` for the user model (framework superclass
called on serializers.py line 148): instantiate the model from the
validated fields; Django's user model activates accounts by default. -/
def modelSerializerCreateUser (vd : UserInput) : UserRec :=
  { first_name := vd.first_name, last_name := vd.last_name,
    username := vd.username, email := vd.email, password := vd.password,
    is_active := true }

/-- `UserSerializer.create` (serializers.py lines 147-152): superclass
create, then `is_active = True`, then `set_password` on the submitted raw
password, then save. -/
def userSerializerCreate (vd : UserInput) : UserRec :=
  let user := modelSerializerCreateUser vd
  let user2 : UserRec := { user with is_active := true }
  set_password user2 vd.password

/-- The readable serialization of a user: the `Meta.fields` minus the
write-only `password` (serializers.py line 141). -/
def serializeUser (u : UserRec) : List (String × String) :=
  [("first_name", u.first_name), ("last_name", u.last_name),
   ("username", u.username), ("email", u.email)]

/-! Concrete sample inputs, mirroring the scenario of
`WebhookTest.test_create_ticket_and_followup_via_api`. -/

/-- The test queue. -/
def sampleQueue : Queue := { id := 1, title := "Test Queue" }

/-- The ticket-creation input posted by the API test. -/
def sampleTicketInput : TicketInput :=
  { queue := sampleQueue, title := "Test title",
    description := "Test description\nMulti lines",
    submitter_email := "test@mail.com", priority := 4 }

/-- An empty ticket table. -/
def emptyDB : DB := { tickets := [] }

/-- The webhook configuration the API test installs. -/
def sampleConfig : Config :=
  { new_ticket_webhook_urls := some "http://localhost:8124/new-ticket",
    followup_webhook_urls := some "http://localhost:8124/followup" }

/-- A network on which every POST succeeds. -/
def allOk : String → DeliveryOutcome := fun _ => DeliveryOutcome.success

/-- C1: a successful ticket creation produces exactly one NewTicket event,
and its payload's `ticket.title` and `ticket.description` equal the
submitted title and description verbatim. -/
theorem C1_new_ticket_event_payload (queue_choices : List Nat) (db : DB)
    (cfg : Config) (net : String → DeliveryOutcome) (vd : TicketInput)
    (t : Ticket)
    (h : (ticketSerializerCreate queue_choices db cfg net vd).result =
      Except.ok t) :
    (ticketSerializerCreate queue_choices db cfg net vd).events.map
        (fun e => (e.kind, e.ticket.title, e.ticket.description)) =
      [(EventKind.NewTicket, vd.title, vd.description)] := by
  by_cases hv : ticketFormIsValid queue_choices (ticketFormDataOf vd) = true
  · simp only [ticketSerializerCreate]
    rw [if_pos hv]
    rfl
  · simp only [ticketSerializerCreate] at h
    rw [if_neg hv] at h
    exact Except.noConfusion h

/-- Witness for C1 at the API test's input: the creation succeeds and the
single NewTicket event carries the multi-line description verbatim. -/
theorem C1_new_ticket_event_payload_witness :
    ((ticketSerializerCreate [1] emptyDB sampleConfig allOk
        sampleTicketInput).result =
      Except.ok (ticketFormSave emptyDB (ticketFormDataOf sampleTicketInput)
        sampleTicketInput)) ∧
    (ticketSerializerCreate [1] emptyDB sampleConfig allOk
        sampleTicketInput).events.map
        (fun e => (e.kind, e.ticket.title, e.ticket.description)) =
      [(EventKind.NewTicket, "Test title", "Test description\nMulti lines")] :=
  have h : (ticketSerializerCreate [1] emptyDB sampleConfig allOk
      sampleTicketInput).result =
      Except.ok (ticketFormSave emptyDB (ticketFormDataOf sampleTicketInput)
        sampleTicketInput) := by rfl
  ⟨h, C1_new_ticket_event_payload [1] emptyDB sampleConfig allOk
    sampleTicketInput _ h⟩

/-- C3: when `TicketForm` validation fails, `TicketSerializer.create`
raises the structured (non-empty) validation error, persists no ticket,
and neither builds nor dispatches any event. -/
theorem C3_validation_failure_no_event (queue_choices : List Nat) (db : DB)
    (cfg : Config) (net : String → DeliveryOutcome) (vd : TicketInput)
    (h : ticketFormIsValid queue_choices (ticketFormDataOf vd) = false) :
    (ticketSerializerCreate queue_choices db cfg net vd).result =
      Except.error (ticketFormErrors queue_choices (ticketFormDataOf vd)) ∧
    ticketFormErrors queue_choices (ticketFormDataOf vd) ≠ [] ∧
    (ticketSerializerCreate queue_choices db cfg net vd).db = db ∧
    (ticketSerializerCreate queue_choices db cfg net vd).events = [] ∧
    (ticketSerializerCreate queue_choices db cfg net vd).attempts = [] := by
  have herr : ticketFormErrors queue_choices (ticketFormDataOf vd) ≠ [] := by
    unfold ticketFormIsValid at h
    unfold ticketFormErrors
    by_cases hq : queue_choices.contains (ticketFormDataOf vd).queue
    · by_cases ht : (ticketFormDataOf vd).title = ""
      · simp [hq, ht]
      · by_cases hb : (ticketFormDataOf vd).body = ""
        · simp [hq, ht, hb]
        · exfalso
          rw [hq] at h
          simp [ht, hb] at h
    · rw [if_neg hq]
      simp
  have hv : ¬ ticketFormIsValid queue_choices (ticketFormDataOf vd) = true := by
    simp [h]
  refine ⟨?_, herr, ?_, ?_, ?_⟩ <;>
    · simp only [ticketSerializerCreate]
      rw [if_neg hv]

/-- Witness for C3: the sample input against a queue-choice list that does
not contain its queue fails validation, raising the error with nothing
persisted or dispatched. -/
theorem C3_validation_failure_no_event_witness :
    (ticketFormIsValid [2] (ticketFormDataOf sampleTicketInput) = false) ∧
    ((ticketSerializerCreate [2] emptyDB sampleConfig allOk
        sampleTicketInput).result =
      Except.error (ticketFormErrors [2] (ticketFormDataOf sampleTicketInput)) ∧
    ticketFormErrors [2] (ticketFormDataOf sampleTicketInput) ≠ [] ∧
    (ticketSerializerCreate [2] emptyDB sampleConfig allOk
        sampleTicketInput).db = emptyDB ∧
    (ticketSerializerCreate [2] emptyDB sampleConfig allOk
        sampleTicketInput).events = [] ∧
    (ticketSerializerCreate [2] emptyDB sampleConfig allOk
        sampleTicketInput).attempts = []) :=
  have h : ticketFormIsValid [2] (ticketFormDataOf sampleTicketInput) = false := by
    rfl
  ⟨h, C3_validation_failure_no_event [2] emptyDB sampleConfig allOk
    sampleTicketInput h⟩

/-- The ticket persisted by the sample creation (id 1, empty follow-up
list). -/
def sampleTicket : Ticket :=
  ticketFormSave emptyDB (ticketFormDataOf sampleTicketInput) sampleTicketInput

/-- The ticket table after the sample creation. -/
def sampleDB : DB := { tickets := [sampleTicket] }

/-- The follow-up input posted by the API test: parent ticket 1, comment
"Test comment", no explicit user. -/
def sampleFollowUpInput : FollowUpInput :=
  { ticket := 1, comment := some "Test comment" }

/-- The email payload of the email-ingestion test. -/
def sampleEmailPayload : EmailPayload :=
  { body := "hello", full_body := "hello", subject := "Test subject",
    queue := sampleQueue, sender_email := "user@example.com", priority := 1 }

/-- C2: a successful follow-up creation on a resolvable parent ticket —
through the API serializer or through email ingestion — produces exactly
one FollowUp event whose payload embeds the parent ticket; the embedded
ticket's last follow-up carries the submitted comment and the embedded
ticket's id is the parent's id. -/
theorem C2_followup_event_payload (ctxUser : Nat) (db : DB) (cfg : Config)
    (net : String → DeliveryOutcome) (vd : FollowUpInput) (t : Ticket)
    (hres : findTicket db vd.ticket = some t)
    (db2 : DB) (cfg2 : Config) (net2 : String → DeliveryOutcome)
    (p : EmailPayload) (tid : Nat) (t2 : Ticket)
    (hres2 : findTicket db2 tid = some t2) :
    ((followUpSerializerCreate ctxUser db cfg net vd).events.map
        (fun e => (e.kind, e.ticket.id,
          e.ticket.followup_set.getLast?.map (fun f => f.comment))) =
      [(EventKind.FollowUp, t.id, some (vd.comment.getD ""))]) ∧
    ((create_object_from_email_message db2 cfg2 net2 (some tid) p).events.map
        (fun e => (e.kind, e.ticket.id,
          e.ticket.followup_set.getLast?.map (fun f => f.comment))) =
      [(EventKind.FollowUp, t2.id, some p.body)]) := by
  constructor
  · simp only [followUpSerializerCreate, update_ticket, hres]
    simp [serializeTicket, serializeFollowUp, List.getLast?_concat]
  · simp only [create_object_from_email_message, Option.bind, Option.map,
      hres2]
    unfold update_ticket
    rw [hres2]
    simp [serializeTicket, serializeFollowUp, List.getLast?_concat]

/-- Witness for C2 at the test scenario: parent ticket 1 resolves in the
sample table, the API follow-up carries "Test comment" and the email
follow-up carries "hello", each as the last element of the embedded
ticket's follow-up list. -/
theorem C2_followup_event_payload_witness :
    (findTicket sampleDB sampleFollowUpInput.ticket = some sampleTicket) ∧
    (findTicket sampleDB 1 = some sampleTicket) ∧
    ((followUpSerializerCreate 7 sampleDB sampleConfig allOk
        sampleFollowUpInput).events.map
        (fun e => (e.kind, e.ticket.id,
          e.ticket.followup_set.getLast?.map (fun f => f.comment))) =
      [(EventKind.FollowUp, sampleTicket.id, some "Test comment")]) ∧
    ((create_object_from_email_message sampleDB sampleConfig allOk (some 1)
        sampleEmailPayload).events.map
        (fun e => (e.kind, e.ticket.id,
          e.ticket.followup_set.getLast?.map (fun f => f.comment))) =
      [(EventKind.FollowUp, sampleTicket.id, some "hello")]) :=
  have h1 : findTicket sampleDB sampleFollowUpInput.ticket = some sampleTicket := by
    rfl
  have h2 : findTicket sampleDB 1 = some sampleTicket := by rfl
  have hmain := C2_followup_event_payload 7 sampleDB sampleConfig allOk
    sampleFollowUpInput sampleTicket h1 sampleDB sampleConfig allOk
    sampleEmailPayload 1 sampleTicket h2
  ⟨h1, h2, hmain.1, hmain.2⟩

/-- The follow-up row persisted by the sample API follow-up creation. -/
def sampleFollowUp : FollowUpRec :=
  { id := 1, ticket := 1, user := some 7, title := none,
    comment := "Test comment", public := false, new_status := none,
    time_spent := none }

/-- C4: every successful Ticket or FollowUp creation produces exactly one
event, of the corresponding kind and never the other, and it is dispatched
to every endpoint currently configured for that kind — one attempt per
configured endpoint. -/
theorem C4_one_event_per_creation_all_endpoints (queue_choices : List Nat)
    (db : DB) (cfg : Config) (net : String → DeliveryOutcome)
    (vd : TicketInput) (t : Ticket)
    (h : (ticketSerializerCreate queue_choices db cfg net vd).result =
      Except.ok t)
    (ctxUser : Nat) (db2 : DB) (cfg2 : Config)
    (net2 : String → DeliveryOutcome) (fvd : FollowUpInput) (f : FollowUpRec)
    (h2 : (followUpSerializerCreate ctxUser db2 cfg2 net2 fvd).result =
      Except.ok f) :
    ((ticketSerializerCreate queue_choices db cfg net vd).events.map
        (fun e => e.kind) = [EventKind.NewTicket] ∧
      (ticketSerializerCreate queue_choices db cfg net vd).attempts.map
        (fun a => a.url) = resolveEndpoints cfg EventKind.NewTicket) ∧
    ((followUpSerializerCreate ctxUser db2 cfg2 net2 fvd).events.map
        (fun e => e.kind) = [EventKind.FollowUp] ∧
      (followUpSerializerCreate ctxUser db2 cfg2 net2 fvd).attempts.map
        (fun a => a.url) = resolveEndpoints cfg2 EventKind.FollowUp) := by
  refine ⟨?_, ?_⟩
  · by_cases hv : ticketFormIsValid queue_choices (ticketFormDataOf vd) = true
    · constructor
      · simp only [ticketSerializerCreate]
        rw [if_pos hv]
        rfl
      · simp only [ticketSerializerCreate]
        rw [if_pos hv]
        exact dispatch_urls cfg net _
    · simp only [ticketSerializerCreate] at h
      rw [if_neg hv] at h
      exact Except.noConfusion h
  · cases hft : findTicket db2 fvd.ticket with
    | none =>
      simp only [followUpSerializerCreate] at h2
      unfold update_ticket at h2
      rw [hft] at h2
      exact Except.noConfusion h2
    | some t0 =>
      constructor
      · simp only [followUpSerializerCreate]
        unfold update_ticket
        rw [hft]
        rfl
      · simp only [followUpSerializerCreate]
        unfold update_ticket
        rw [hft]
        exact dispatch_urls cfg2 net2 _

/-- Witness for C4: the sample ticket creation and the sample follow-up
creation each succeed, yield their one event of the right kind, and attempt
delivery at exactly the configured endpoint of that kind. -/
theorem C4_one_event_per_creation_all_endpoints_witness :
    ((ticketSerializerCreate [1] emptyDB sampleConfig allOk
        sampleTicketInput).result = Except.ok sampleTicket) ∧
    ((followUpSerializerCreate 7 sampleDB sampleConfig allOk
        sampleFollowUpInput).result = Except.ok sampleFollowUp) ∧
    ((ticketSerializerCreate [1] emptyDB sampleConfig allOk
        sampleTicketInput).events.map (fun e => e.kind) =
      [EventKind.NewTicket] ∧
      (ticketSerializerCreate [1] emptyDB sampleConfig allOk
        sampleTicketInput).attempts.map (fun a => a.url) =
        resolveEndpoints sampleConfig EventKind.NewTicket) ∧
    ((followUpSerializerCreate 7 sampleDB sampleConfig allOk
        sampleFollowUpInput).events.map (fun e => e.kind) =
      [EventKind.FollowUp] ∧
      (followUpSerializerCreate 7 sampleDB sampleConfig allOk
        sampleFollowUpInput).attempts.map (fun a => a.url) =
        resolveEndpoints sampleConfig EventKind.FollowUp) :=
  have h : (ticketSerializerCreate [1] emptyDB sampleConfig allOk
      sampleTicketInput).result = Except.ok sampleTicket := by rfl
  have h2 : (followUpSerializerCreate 7 sampleDB sampleConfig allOk
      sampleFollowUpInput).result = Except.ok sampleFollowUp := by rfl
  have hmain := C4_one_event_per_creation_all_endpoints [1] emptyDB
    sampleConfig allOk sampleTicketInput sampleTicket h 7 sampleDB
    sampleConfig allOk sampleFollowUpInput sampleFollowUp h2
  ⟨h, h2, hmain.1, hmain.2⟩

/-- C5: with the endpoint configuration for an event kind unset or empty,
dispatch for that kind performs zero delivery attempts and this is no
error — covering both kinds: a valid ticket creation (NewTicket) and a
follow-up creation on a resolvable parent (FollowUp) each still succeed
with zero attempts. -/
theorem C5_zero_endpoints_no_calls (queue_choices : List Nat) (db : DB)
    (cfg : Config) (net : String → DeliveryOutcome) (vd : TicketInput)
    (hcfg : cfg.new_ticket_webhook_urls = none ∨
      cfg.new_ticket_webhook_urls = some "")
    (hv : ticketFormIsValid queue_choices (ticketFormDataOf vd) = true)
    (hcfgF : cfg.followup_webhook_urls = none ∨
      cfg.followup_webhook_urls = some "")
    (ctxUser : Nat) (db2 : DB) (net2 : String → DeliveryOutcome)
    (fvd : FollowUpInput) (t : Ticket)
    (hft : findTicket db2 fvd.ticket = some t) :
    (resolveEndpoints cfg EventKind.NewTicket = [] ∧
      (ticketSerializerCreate queue_choices db cfg net vd).attempts = [] ∧
      (ticketSerializerCreate queue_choices db cfg net vd).result =
        Except.ok (ticketFormSave db (ticketFormDataOf vd) vd)) ∧
    (resolveEndpoints cfg EventKind.FollowUp = [] ∧
      (followUpSerializerCreate ctxUser db2 cfg net2 fvd).attempts = [] ∧
      ∃ f, (followUpSerializerCreate ctxUser db2 cfg net2 fvd).result =
        Except.ok f) := by
  have hres : resolveEndpoints cfg EventKind.NewTicket = [] := by
    rcases hcfg with hc | hc
    · simp [resolveEndpoints, hc]
    · rw [resolveEndpoints, hc]
      rfl
  have hresF : resolveEndpoints cfg EventKind.FollowUp = [] := by
    rcases hcfgF with hc | hc
    · simp [resolveEndpoints, hc]
    · rw [resolveEndpoints, hc]
      rfl
  refine ⟨⟨hres, ?_, ?_⟩, hresF, ?_, ?_⟩
  · simp only [ticketSerializerCreate]
    rw [if_pos hv]
    simp [dispatch, hres]
  · simp only [ticketSerializerCreate]
    rw [if_pos hv]
  · simp only [followUpSerializerCreate]
    unfold update_ticket
    rw [hft]
    simp [dispatch, hresF]
  · simp only [followUpSerializerCreate]
    unfold update_ticket
    rw [hft]
    exact ⟨_, rfl⟩

/-- A configuration with no endpoint set for either kind. -/
def emptyConfig : Config :=
  { new_ticket_webhook_urls := none, followup_webhook_urls := none }

/-- Witness for C5: with no endpoints configured for either kind, the
sample ticket creation and the sample follow-up creation both still
succeed, each with zero delivery attempts. -/
theorem C5_zero_endpoints_no_calls_witness :
    (emptyConfig.new_ticket_webhook_urls = none ∨
      emptyConfig.new_ticket_webhook_urls = some "") ∧
    ticketFormIsValid [1] (ticketFormDataOf sampleTicketInput) = true ∧
    (emptyConfig.followup_webhook_urls = none ∨
      emptyConfig.followup_webhook_urls = some "") ∧
    findTicket sampleDB sampleFollowUpInput.ticket = some sampleTicket ∧
    ((resolveEndpoints emptyConfig EventKind.NewTicket = [] ∧
      (ticketSerializerCreate [1] emptyDB emptyConfig allOk
        sampleTicketInput).attempts = [] ∧
      (ticketSerializerCreate [1] emptyDB emptyConfig allOk
        sampleTicketInput).result =
        Except.ok (ticketFormSave emptyDB (ticketFormDataOf sampleTicketInput)
          sampleTicketInput)) ∧
    (resolveEndpoints emptyConfig EventKind.FollowUp = [] ∧
      (followUpSerializerCreate 7 sampleDB emptyConfig allOk
        sampleFollowUpInput).attempts = [] ∧
      ∃ f, (followUpSerializerCreate 7 sampleDB emptyConfig allOk
        sampleFollowUpInput).result = Except.ok f)) :=
  have hcfg : emptyConfig.new_ticket_webhook_urls = none ∨
      emptyConfig.new_ticket_webhook_urls = some "" := Or.inl rfl
  have hv : ticketFormIsValid [1] (ticketFormDataOf sampleTicketInput) = true := by
    rfl
  have hcfgF : emptyConfig.followup_webhook_urls = none ∨
      emptyConfig.followup_webhook_urls = some "" := Or.inl rfl
  have hft : findTicket sampleDB sampleFollowUpInput.ticket =
      some sampleTicket := by rfl
  ⟨hcfg, hv, hcfgF, hft, C5_zero_endpoints_no_calls [1] emptyDB emptyConfig
    allOk sampleTicketInput hcfg hv hcfgF 7 sampleDB allOk
    sampleFollowUpInput sampleTicket hft⟩

/-- C6: delivery failures are isolated — whatever outcomes the network
produces (including failures at any endpoint), every configured endpoint
still gets its delivery attempt, and the result, persisted state and
success status of the triggering creation are identical under any two
networks, so no delivery failure is ever propagated to the creation
caller. -/
theorem C6_delivery_failure_isolated (cfg : Config)
    (net net2 : String → DeliveryOutcome) (ev : Event)
    (queue_choices : List Nat) (db : DB) (vd : TicketInput)
    (ctxUser : Nat) (db2 : DB) (fvd : FollowUpInput) :
    ((dispatch cfg net ev).map (fun a => a.url) =
      resolveEndpoints cfg ev.kind) ∧
    ((ticketSerializerCreate queue_choices db cfg net vd).result =
      (ticketSerializerCreate queue_choices db cfg net2 vd).result) ∧
    ((ticketSerializerCreate queue_choices db cfg net vd).db =
      (ticketSerializerCreate queue_choices db cfg net2 vd).db) ∧
    ((followUpSerializerCreate ctxUser db2 cfg net fvd).result =
      (followUpSerializerCreate ctxUser db2 cfg net2 fvd).result) := by
  refine ⟨dispatch_urls cfg net ev, ?_, ?_, ?_⟩
  · by_cases hv : ticketFormIsValid queue_choices (ticketFormDataOf vd) = true <;>
      simp [ticketSerializerCreate, hv]
  · by_cases hv : ticketFormIsValid queue_choices (ticketFormDataOf vd) = true <;>
      simp [ticketSerializerCreate, hv]
  · cases hft : findTicket db2 fvd.ticket with
    | none =>
      simp only [followUpSerializerCreate]
      unfold update_ticket
      rw [hft]
    | some t0 =>
      simp only [followUpSerializerCreate]
      unfold update_ticket
      rw [hft]

/-- Two consecutive ticket creations, the registry reading the
configuration handed to each call — the tests mutate the configuration
between scenarios. -/
def twoTicketCreations (queue_choices : List Nat) (db : DB)
    (cfg1 cfg2 : Config) (net : String → DeliveryOutcome)
    (vd1 vd2 : TicketInput) : TicketCreateOutcome × TicketCreateOutcome :=
  let o1 := ticketSerializerCreate queue_choices db cfg1 net vd1
  (o1, ticketSerializerCreate queue_choices o1.db cfg2 net vd2)

/-- Two consecutive follow-up creations, the registry likewise reading the
configuration handed to each call. -/
def twoFollowUpCreations (ctxUser : Nat) (db : DB) (cfg1 cfg2 : Config)
    (net : String → DeliveryOutcome) (vd1 vd2 : FollowUpInput) :
    FollowUpCreateOutcome × FollowUpCreateOutcome :=
  let o1 := followUpSerializerCreate ctxUser db cfg1 net vd1
  (o1, followUpSerializerCreate ctxUser o1.db cfg2 net vd2)

/-- A follow-up creation on a resolvable parent attempts delivery at
exactly the FollowUp endpoint list of the configuration handed to that
call. -/
theorem followUpCreate_attempts_urls (ctxUser : Nat) (db : DB)
    (cfg : Config) (net : String → DeliveryOutcome) (vd : FollowUpInput)
    (t : Ticket) (h : findTicket db vd.ticket = some t) :
    (followUpSerializerCreate ctxUser db cfg net vd).attempts.map
      (fun a => a.url) = resolveEndpoints cfg EventKind.FollowUp := by
  simp only [followUpSerializerCreate]
  unfold update_ticket
  rw [h]
  exact dispatch_urls cfg net _

/-- C7: the endpoint configuration is read afresh at every dispatch, for
either kind — after the configured URL list changes between two creations,
the second creation's event goes to the endpoints of the configuration as
it stands then, and the second outcome does not depend on the earlier
configuration at all (no restart needed); stated for two consecutive
ticket creations (NewTicket dispatches) and two consecutive follow-up
creations (FollowUp dispatches). -/
theorem C7_config_read_fresh (queue_choices : List Nat) (db : DB)
    (cfg1 cfg1' cfg2 : Config) (net : String → DeliveryOutcome)
    (vd1 vd2 : TicketInput)
    (hv2 : ticketFormIsValid queue_choices (ticketFormDataOf vd2) = true)
    (ctxUser : Nat) (dbf : DB) (fvd1 fvd2 : FollowUpInput) (t2 : Ticket)
    (hft2 : findTicket
        (twoFollowUpCreations ctxUser dbf cfg1 cfg2 net fvd1 fvd2).1.db
        fvd2.ticket = some t2) :
    (((twoTicketCreations queue_choices db cfg1 cfg2 net vd1 vd2).2.attempts.map
        (fun a => a.url) = resolveEndpoints cfg2 EventKind.NewTicket) ∧
    (twoTicketCreations queue_choices db cfg1 cfg2 net vd1 vd2).2 =
      (twoTicketCreations queue_choices db cfg1' cfg2 net vd1 vd2).2) ∧
    (((twoFollowUpCreations ctxUser dbf cfg1 cfg2 net fvd1 fvd2).2.attempts.map
        (fun a => a.url) = resolveEndpoints cfg2 EventKind.FollowUp) ∧
    (twoFollowUpCreations ctxUser dbf cfg1 cfg2 net fvd1 fvd2).2 =
      (twoFollowUpCreations ctxUser dbf cfg1' cfg2 net fvd1 fvd2).2) := by
  have hdb : (ticketSerializerCreate queue_choices db cfg1 net vd1).db =
      (ticketSerializerCreate queue_choices db cfg1' net vd1).db := by
    by_cases hv1 : ticketFormIsValid queue_choices (ticketFormDataOf vd1) = true <;>
      simp [ticketSerializerCreate, hv1]
  have hdbF : (followUpSerializerCreate ctxUser dbf cfg1 net fvd1).db =
      (followUpSerializerCreate ctxUser dbf cfg1' net fvd1).db := by
    cases hft : findTicket dbf fvd1.ticket with
    | none =>
      simp only [followUpSerializerCreate]
      unfold update_ticket
      rw [hft]
    | some t0 =>
      simp only [followUpSerializerCreate]
      unfold update_ticket
      rw [hft]
  refine ⟨⟨?_, ?_⟩, ?_, ?_⟩
  · simp only [twoTicketCreations]
    simp only [ticketSerializerCreate]
    rw [if_pos hv2]
    exact dispatch_urls cfg2 net _
  · simp only [twoTicketCreations]
    rw [hdb]
  · exact followUpCreate_attempts_urls ctxUser
      (twoFollowUpCreations ctxUser dbf cfg1 cfg2 net fvd1 fvd2).1.db cfg2
      net fvd2 t2 hft2
  · simp only [twoFollowUpCreations]
    rw [hdbF]

/-- A second webhook configuration, as the email test installs after the
API test mutated the environment. -/
def sampleConfig2 : Config :=
  { new_ticket_webhook_urls :=
      some "http://localhost:8125/new-ticket,http://localhost:9000/copy",
    followup_webhook_urls := some "http://localhost:8125/followup" }

/-- The second follow-up posted in the C7 scenario. -/
def sampleFollowUpInput2 : FollowUpInput :=
  { ticket := 1, comment := some "Test comment 2" }

/-- The parent ticket as it stands after the first sample follow-up. -/
def sampleTicketAfterFollowUp : Ticket :=
  { sampleTicket with followup_set := [sampleFollowUp] }

/-- Witness for C7: with the configuration changed between the two sample
creations of each kind, the second creation's attempts go exactly to the
URLs of the later configuration (two URLs for NewTicket, one for
FollowUp), and the second outcome is the same whether the first creation
ran under the old configuration or under none at all. -/
theorem C7_config_read_fresh_witness :
    ticketFormIsValid [1] (ticketFormDataOf sampleTicketInput) = true ∧
    findTicket
        (twoFollowUpCreations 7 sampleDB sampleConfig sampleConfig2 allOk
          sampleFollowUpInput sampleFollowUpInput2).1.db
        sampleFollowUpInput2.ticket = some sampleTicketAfterFollowUp ∧
    ((((twoTicketCreations [1] emptyDB sampleConfig sampleConfig2 allOk
        sampleTicketInput sampleTicketInput).2.attempts.map
        (fun a => a.url) =
      resolveEndpoints sampleConfig2 EventKind.NewTicket) ∧
    (twoTicketCreations [1] emptyDB sampleConfig sampleConfig2 allOk
        sampleTicketInput sampleTicketInput).2 =
      (twoTicketCreations [1] emptyDB emptyConfig sampleConfig2 allOk
        sampleTicketInput sampleTicketInput).2) ∧
    (((twoFollowUpCreations 7 sampleDB sampleConfig sampleConfig2 allOk
        sampleFollowUpInput sampleFollowUpInput2).2.attempts.map
        (fun a => a.url) =
      resolveEndpoints sampleConfig2 EventKind.FollowUp) ∧
    (twoFollowUpCreations 7 sampleDB sampleConfig sampleConfig2 allOk
        sampleFollowUpInput sampleFollowUpInput2).2 =
      (twoFollowUpCreations 7 sampleDB emptyConfig sampleConfig2 allOk
        sampleFollowUpInput sampleFollowUpInput2).2)) ∧
    resolveEndpoints sampleConfig2 EventKind.NewTicket =
      ["http://localhost:8125/new-ticket", "http://localhost:9000/copy"] ∧
    resolveEndpoints sampleConfig2 EventKind.FollowUp =
      ["http://localhost:8125/followup"] :=
  have hv2 : ticketFormIsValid [1] (ticketFormDataOf sampleTicketInput) = true := by
    rfl
  have hft2 : findTicket
      (twoFollowUpCreations 7 sampleDB sampleConfig sampleConfig2 allOk
        sampleFollowUpInput sampleFollowUpInput2).1.db
      sampleFollowUpInput2.ticket = some sampleTicketAfterFollowUp := by rfl
  ⟨hv2, hft2,
    C7_config_read_fresh [1] emptyDB sampleConfig emptyConfig sampleConfig2
      allOk sampleTicketInput sampleTicketInput hv2 7 sampleDB
      sampleFollowUpInput sampleFollowUpInput2 sampleTicketAfterFollowUp hft2,
    by decide, by decide⟩

/-- C8: at every construction of a ticket serializer the schema is the
declared `Meta.fields` plus one `custom_<name>` field for each
`CustomField` row of the table passed at that construction — so each
custom field currently in the database contributes its field, resolved
afresh from the table rather than fixed at class-definition time. -/
theorem C8_custom_fields_injected (customFieldTable : List CustomField)
    (f : CustomField) (h : f ∈ customFieldTable) :
    ticketSerializerFields customFieldTable =
      ticketSerializerDeclaredFields ++
        customFieldTable.map (fun g => "custom_" ++ g.name) ∧
    ("custom_" ++ f.name) ∈ ticketSerializerFields customFieldTable := by
  refine ⟨rfl, ?_⟩
  unfold ticketSerializerFields baseTicketSerializerFields
  exact List.mem_append_right _ (List.mem_map_of_mem _ h)

/-- Witness for C8: with a one-row custom-field table holding "priority2",
the schema contains "custom_priority2". -/
theorem C8_custom_fields_injected_witness :
    ({ name := "priority2" } : CustomField) ∈
      [({ name := "priority2" } : CustomField)] ∧
    (ticketSerializerFields [{ name := "priority2" }] =
      ticketSerializerDeclaredFields ++
        ([({ name := "priority2" } : CustomField)]).map
          (fun g => "custom_" ++ g.name) ∧
    ("custom_" ++ ({ name := "priority2" } : CustomField).name) ∈
      ticketSerializerFields [{ name := "priority2" }]) :=
  have h : ({ name := "priority2" } : CustomField) ∈
      [({ name := "priority2" } : CustomField)] := List.mem_singleton_self _
  ⟨h, C8_custom_fields_injected [{ name := "priority2" }]
    { name := "priority2" } h⟩

/-- C9: `UserSerializer.create` returns an active user whose stored
password is the hash of the submitted raw password — never the raw value
itself — and the user's readable serialization exposes exactly the
non-write-only fields, never the password. -/
theorem C9_user_create_hashed_active (vd : UserInput) :
    (userSerializerCreate vd).is_active = true ∧
    (userSerializerCreate vd).password = hashPassword vd.password ∧
    hashPassword vd.password ≠ vd.password ∧
    (serializeUser (userSerializerCreate vd)).map (fun kv => kv.1) =
      ["first_name", "last_name", "username", "email"] ∧
    ¬ ("password" ∈ (serializeUser (userSerializerCreate vd)).map
        (fun kv => kv.1)) := by
  refine ⟨rfl, rfl, ?_, rfl, ?_⟩
  · intro heq
    have hlen := congrArg String.length heq
    simp only [hashPassword, String.length_append] at hlen
    have h14 : ("pbkdf2_sha256$").length = 14 := rfl
    rw [h14] at hlen
    omega
  · rw [show (serializeUser (userSerializerCreate vd)).map (fun kv => kv.1) =
      ["first_name", "last_name", "username", "email"] from rfl]
    decide

/-- C10: `FollowUpSerializer.create` on a resolvable parent ticket
attributes the created follow-up to the submitted user when one is present
(truthy), and to the authenticated request user otherwise. -/
theorem C10_followup_user_attribution (ctxUser : Nat) (db : DB)
    (cfg : Config) (net : String → DeliveryOutcome) (vd : FollowUpInput)
    (t : Ticket) (h : findTicket db vd.ticket = some t) :
    ∃ f, (followUpSerializerCreate ctxUser db cfg net vd).result =
        Except.ok f ∧
      f.user = some (match vd.user with
        | some u => u
        | none => ctxUser) := by
  simp only [followUpSerializerCreate]
  unfold update_ticket
  rw [h]
  exact ⟨_, rfl, rfl⟩

/-- Witness for C10, both branches at the sample table: a follow-up posted
without a user is attributed to the authenticated user 7; one posted with
user 5 is attributed to 5. -/
theorem C10_followup_user_attribution_witness :
    (findTicket sampleDB sampleFollowUpInput.ticket = some sampleTicket) ∧
    (findTicket sampleDB
        ({ ticket := 1, user := some 5 } : FollowUpInput).ticket =
      some sampleTicket) ∧
    (∃ f, (followUpSerializerCreate 7 sampleDB sampleConfig allOk
        sampleFollowUpInput).result = Except.ok f ∧ f.user = some 7) ∧
    (∃ f, (followUpSerializerCreate 7 sampleDB sampleConfig allOk
        { ticket := 1, user := some 5 }).result = Except.ok f ∧
      f.user = some 5) :=
  have h1 : findTicket sampleDB sampleFollowUpInput.ticket =
      some sampleTicket := by rfl
  have h2 : findTicket sampleDB
      ({ ticket := 1, user := some 5 } : FollowUpInput).ticket =
      some sampleTicket := by rfl
  ⟨h1, h2,
    C10_followup_user_attribution 7 sampleDB sampleConfig allOk
      sampleFollowUpInput sampleTicket h1,
    C10_followup_user_attribution 7 sampleDB sampleConfig allOk
      { ticket := 1, user := some 5 } sampleTicket h2⟩

end Helpdesk
